import Mathlib

/-!
Shallow embedding of the Job tracking core of the deeporigin platform SDK
(`src/platform/job.py`): the `Job` entity with its snapshot/status state,
the state-transition operations `sync`, `confirm`, `cancel`, the
`from_dto` construction, the `watch`/`stop_watching` poller management,
and the `JobList` aggregate operations (`confirm`, `cancel`, `filter`,
`to_dataframe`, paginated `list`).

Python values carried in DTOs are modelled by the JSON-like type `Val`;
Python `None` is `Val.vnull`, and a Python dict is the association list
`DTO` (first binding wins on lookup, keys are distinct in practice).
Every operation that can raise returns an `Except`; a list of `GCall`
values returned alongside a result records which Execution Gateway
endpoints the operation invoked, in order. External collaborators (the
HTTP gateway, pandas timestamp parsing, the asyncio scheduler) are
modelled as explicit parameters or small state records.
-/

mutual
/-- JSON-like Python value as stored in execution DTOs. `vnull` is Python
`None`. -/
inductive Val where
  | vnull
  | vbool (b : Bool)
  | vint (n : Int)
  | vstr (s : String)
  | vlist (elems : ValList)
  | vdict (fields : DTO)
deriving Repr, DecidableEq

/-- A JSON array of values. -/
inductive ValList where
  | nil
  | cons (head : Val) (tail : ValList)
deriving Repr, DecidableEq

/-- A DTO is a Python dict: a finite mapping from string keys to JSON
values, in insertion order. -/
inductive DTO where
  | nil
  | cons (key : String) (value : Val) (rest : DTO)
deriving Repr, DecidableEq
end

/-- Python `d.get(k)`: the stored value, or `None` when the key is absent.
Matches Python in that a stored `None` and an absent key are
indistinguishable through `get`. -/
def DTO.get : DTO → String → Val
  | .nil, _ => .vnull
  | .cons k v rest, key => if k == key then v else rest.get key

/-- Python `d.get(k, default)`: the stored value, or `default` when the
key is absent (a stored `None` is returned as `None`, not as the
default). -/
def DTO.getD : DTO → String → Val → Val
  | .nil, _, d => d
  | .cons k v rest, key, d => if k == key then v else rest.getD key d

/-- Whether the dict has no entry, i.e. is falsy in Python. -/
def DTO.isEmpty : DTO → Bool
  | .nil => true
  | .cons _ _ _ => false

/-- Builds a dict from a list of key/value pairs, for concrete inputs. -/
def DTO.ofList : List (String × Val) → DTO
  | [] => .nil
  | (k, v) :: rest => .cons k v (DTO.ofList rest)

/-- Whether the array is empty, i.e. falsy in Python. -/
def ValList.isEmpty : ValList → Bool
  | .nil => true
  | .cons _ _ => false

/-- Python truthiness of a value, as used by `if result:` and
`job._attributes and ...`. -/
def truthy : Val → Bool
  | .vnull => false
  | .vbool b => b
  | .vint n => n != 0
  | .vstr s => s != ""
  | .vlist l => !l.isEmpty
  | .vdict d => !d.isEmpty

/-- Python `str()` of a status value, as interpolated into the f-string of
the confirm error message. `Job.status` is annotated `Optional[str]`, so
the string and `None` cases are the ones that arise and are rendered
exactly; the remaining JSON shapes are rendered through `reprStr` as a
total fallback. -/
def pyStrStatus : Val → String
  | .vnull => "None"
  | .vstr s => s
  | .vbool b => if b then "True" else "False"
  | .vint n => toString n
  | v => reprStr v

/-- An error raised by the Execution Gateway client (network/HTTP failure,
NotFound, ...), carried opaquely as its message. -/
abbrev GErr := String

/-- One call to the Execution Gateway, as issued by a Job operation.
`getCall` is `client.executions.get_execution`, `confirmCall` is
`client.executions.confirm`, `cancelCall` is `client.executions.cancel`. -/
inductive GCall where
  | getCall (id : Val)
  | confirmCall (id : Val)
  | cancelCall (id : Val)
deriving Repr, DecidableEq

/-- The `DeepOriginException` payload from `src/exceptions.py`: title,
Bootstrap level, and message body. -/
structure DeepOriginException where
  title : String
  level : String
  message : String
deriving Repr, DecidableEq

/-- An exception propagating out of a Job operation: either a
`DeepOriginException` raised by the SDK itself or an error raised by the
gateway client. -/
inductive JobError where
  | doError (e : DeepOriginException)
  | gatewayError (e : GErr)
deriving Repr, DecidableEq

/-- The Execution Gateway (`client.executions`) as seen by the Job core:
each endpoint either returns a parsed JSON result or raises. -/
structure Gateway where
  get_execution : Val → Except GErr DTO
  confirm : Val → Except GErr Val
  cancel : Val → Except GErr Val

/-- The `Job` dataclass state relevant to the tracking core: its gateway
id `_id`, the cached DTO snapshot `_attributes` (Python `None` or a
dict), the derived `status` field, and the background poller handle
`_task` (modelled as a task id in the scheduler state). The
notebook-rendering fields (`_viz_func`, `_name_func`, `_display_id`,
`_last_html`) are display callables and caches that no state-transition
operation reads; the `_skip_sync` constructor flag is captured by the two
construction paths; the stored `client` is passed explicitly as the
`Gateway` parameter of each operation. -/
structure Job where
  name : String
  _id : Val
  _task : Option Nat := none
  _attributes : Option DTO := none
  status : Val := .vnull
deriving Repr, DecidableEq

/-- `Job.from_dto`: constructs a Job from an execution DTO with no network
request. Raises `ValueError` when `dto.get("executionId")` is `None`;
otherwise the new Job carries the DTO wholesale as `_attributes` and
`status = dto.get("status")`. The returned `List GCall` records the
gateway calls made (always none). The tool-based selection of
visualization callables performed afterwards reads only the DTO and sets
rendering hooks not modelled here. -/
def Job.from_dto (dto : DTO) : List GCall × Except String Job :=
  match dto.get "executionId" with
  | .vnull => ([], .error "DTO must contain \x27executionId\x27 field")
  | eid =>
      ([], .ok { name := "job", _id := eid, _attributes := some dto,
                 status := dto.get "status" })

/-- `Job.sync`: fetches the execution DTO from the gateway. On a raised
gateway error the exception propagates and the Job is unchanged. On a
returned result, the snapshot and status are replaced only when the
result is truthy (`if result:`); a falsy result (empty dict) leaves the
prior state untouched. -/
def Job.sync (gw : Gateway) (j : Job) : List GCall × Except GErr Job :=
  ([.getCall j._id],
    match gw.get_execution j._id with
    | .error e => .error e
    | .ok result =>
        if !result.isEmpty then
          .ok { j with _attributes := some result, status := result.get "status" }
        else
          .ok j)

/-- The title of the exception raised by `confirm` on a non-Quoted job. -/
def notQuotedTitle : String := "Job is not in the \x27Quoted\x27 state."

/-- The message of the exception raised by `confirm` on a non-Quoted job;
it interpolates the current status. -/
def notQuotedMessage (status : Val) : String :=
  "Job is in the \x27" ++ pyStrStatus status ++
    "\x27 state. Only Quoted jobs can be confirmed."

/-- `Job.confirm`: when `status != "Quoted"`, raises a
`DeepOriginException` carrying the current status, with no gateway call.
Otherwise calls `executions.confirm(execution_id)` and then `sync()`. -/
def Job.confirm (gw : Gateway) (j : Job) : List GCall × Except JobError Job :=
  if j.status != .vstr "Quoted" then
    ([], .error (.doError
      ⟨notQuotedTitle, "warning", notQuotedMessage j.status⟩))
  else
    match gw.confirm j._id with
    | .error e => ([.confirmCall j._id], .error (.gatewayError e))
    | .ok _ =>
        let s := Job.sync gw j
        (.confirmCall j._id :: s.1, s.2.mapError JobError.gatewayError)

/-- `Job.cancel`: calls `executions.cancel(execution_id)` unconditionally,
then `sync()`. Gateway errors propagate. -/
def Job.cancel (gw : Gateway) (j : Job) : List GCall × Except JobError Job :=
  match gw.cancel j._id with
  | .error e => ([.cancelCall j._id], .error (.gatewayError e))
  | .ok _ =>
      let s := Job.sync gw j
      (.cancelCall j._id :: s.1, s.2.mapError JobError.gatewayError)

/-- Modelled from the spec: the constant `TERMINAL_STATES` is imported
from `deeporigin.platform.constants`, a module not among the sources
here. Spec section 4.1 fixes it: Terminal states: `Succeeded`, `Failed`,
`Cancelled`. -/
def TERMINAL_STATES : List String := ["Succeeded", "Failed", "Cancelled"]

/-- The Python guard `self.status and self.status in TERMINAL_STATES`:
truthy status that is one of the terminal strings (`in` on a list of
strings is an equality test, so a non-string status never matches). -/
def statusTerminalGuard (v : Val) : Bool :=
  truthy v && (match v with
    | .vstr s => TERMINAL_STATES.contains s
    | _ => false)

/-- The asyncio scheduler as seen by `watch`/`stop_watching`: a supply of
fresh task ids and the set of scheduled tasks that have not been
cancelled. Cancelling a task removes it from the active set (asyncio
cancellation is cooperative: the cancelled coroutine unwinds at its next
suspension point and runs no further polling ticks). -/
structure TaskState where
  nextId : Nat
  active : List Nat
deriving Repr, DecidableEq

/-- Observable display/scheduling events of one `watch` call. -/
inductive WatchEvent where
  | displayNotice
  | showRender
  | initPlaceholder
  | taskScheduled (id : Nat)
deriving Repr, DecidableEq

/-- `Job.stop_watching`: when a task handle is held, cancels the task and
clears the handle; otherwise does nothing. Cancellation never raises. -/
def Job.stop_watching (ts : TaskState) (j : Job) : TaskState × Job :=
  match j._task with
  | none => (ts, j)
  | some t => ({ ts with active := ts.active.erase t }, { j with _task := none })

/-- Result of one `watch` call: new scheduler state, new job state, and
the display/scheduling events in order. -/
structure WatchResult where
  ts : TaskState
  job : Job
  events : List WatchEvent
deriving Repr, DecidableEq

/-- `Job.watch`: when the last known status is terminal, displays a
gray notice and a single immediate render (`self.show()`) and returns
without touching any task. Otherwise it first calls `stop_watching` to
cancel any existing poller task, publishes the initializing placeholder,
and schedules the fresh polling task, storing its handle in `_task`. The
body of the polling coroutine (periodic sync/render until terminal) runs
on the event loop after `watch` returns and is not part of this
transition. -/
def Job.watch (ts : TaskState) (j : Job) : WatchResult :=
  if statusTerminalGuard j.status then
    ⟨ts, j, [.displayNotice, .showRender]⟩
  else
    let s := Job.stop_watching ts j
    let tid := s.1.nextId
    ⟨{ nextId := tid + 1, active := s.1.active ++ [tid] },
     { s.2 with _task := some tid },
     [.initPlaceholder, .taskScheduled tid]⟩

/-- Number of active poller tasks the job currently holds: one exactly
when its `_task` handle names a scheduled, not-cancelled task. -/
def jobActivePollers (ts : TaskState) (j : Job) : Nat :=
  match j._task with
  | some t => if t ∈ ts.active then 1 else 0
  | none => 0

/-- Scheduler sanity: task ids are issued uniquely (asyncio tasks are
distinct objects), every scheduled task was issued, and any handle the
job holds was issued. -/
def TaskState.wf (ts : TaskState) (j : Job) : Prop :=
  ts.active.Nodup ∧
    (∀ t ∈ ts.active, t < ts.nextId) ∧
    (∀ t, j._task = some t → t < ts.nextId)

/-- Modelled from the spec: the type of the aggregate failure payload the
error taxonomy of the spec prescribes for `JobList.confirm_all`/`cancel_all`,
carrying the list of (job, underlying error) pairs. No such exception
type exists anywhere in the source. -/
abbrev AggregateFailure := List (Job × JobError)

/-- Default of the `max_workers` parameter of `JobList.confirm` and
`JobList.cancel`: the bound of the thread pool the bulk operations submit
to. -/
def bulkMaxWorkersDefault : Nat := 4

/-- The per-member attempts of `JobList.confirm`: every job of the list is
submitted to the pool, so every member operation is attempted regardless
of the outcomes of the others. Members are independent (each operation
touches only its own job), so the pool interleaving is observationally
the per-job list of outcomes. -/
def JobList.confirmAttempts (gw : Gateway) (jobs : List Job) :
    List (List GCall × Except JobError Job) :=
  jobs.map (Job.confirm gw)

/-- `JobList.confirm`: submits `job.confirm` for every member to a
`ThreadPoolExecutor` (bounded by `max_workers`, default
`bulkMaxWorkersDefault`) and waits for all futures. The exceptions stored
in the futures are never retrieved and the method returns `None`, so no
exception propagates: the error channel of the result is provably unused.
The returned list holds each member as left by its own attempt
(re-synced on success, untouched where the attempt raised). -/
def JobList.confirm (gw : Gateway) (jobs : List Job) :
    Except AggregateFailure (List Job) :=
  .ok (jobs.map (fun j =>
    match (Job.confirm gw j).2 with
    | .ok j2 => j2
    | .error _ => j))

/-- The per-member attempts of `JobList.cancel`, as for
`JobList.confirmAttempts`. -/
def JobList.cancelAttempts (gw : Gateway) (jobs : List Job) :
    List (List GCall × Except JobError Job) :=
  jobs.map (Job.cancel gw)

/-- `JobList.cancel`: as `JobList.confirm`, with `job.cancel` submitted
for every member; futures are waited on, their stored exceptions
discarded, and `None` returned. -/
def JobList.cancel (gw : Gateway) (jobs : List Job) :
    Except AggregateFailure (List Job) :=
  .ok (jobs.map (fun j =>
    match (Job.cancel gw j).2 with
    | .ok j2 => j2
    | .error _ => j))

/-- Modelled from the spec: what the claim says `confirm_all` does —
attempt the member operation on every job, collect the (job, error) pairs
of the failing ones, and raise them as an `AggregateFailure` after all
operations have been attempted, succeeding only when no member failed. -/
def JobList.confirmAllSpec (gw : Gateway) (jobs : List Job) :
    Except AggregateFailure (List Job) :=
  let attempts := jobs.map (fun j => (j, (Job.confirm gw j).2))
  let failures := attempts.filterMap (fun p =>
    match p.2 with
    | .error e => some (p.1, e)
    | .ok _ => none)
  if failures.isEmpty then
    .ok (attempts.map (fun p =>
      match p.2 with
      | .ok j2 => j2
      | .error _ => p.1))
  else
    .error failures

/-- Python truthiness of the `_attributes` field, the guard
`job._attributes and ...` of the tool and attribute filters: a `None` or
empty snapshot fails the guard. -/
def Job.attrsTruthy (j : Job) : Bool :=
  match j._attributes with
  | some d => !d.isEmpty
  | none => false

/-- The snapshot dict of a job, empty when `_attributes` is `None` (only
read behind `attrsTruthy` guards or after the code substitutes `{}`). -/
def Job.attrs (j : Job) : DTO :=
  match j._attributes with
  | some d => d
  | none => .nil

/-- Python `attrs.get("tool", {}).get(k)`: the nested tool field, `None`
when the tool entry is absent or the nested key is absent. Python would
raise AttributeError when the stored tool value is neither a dict nor
absent; no claim input stores a non-dict tool, and that path is rendered
here as `None`. -/
def Job.toolField (j : Job) (k : String) : Val :=
  match j.attrs.getD "tool" (.vdict .nil) with
  | .vdict d => d.get k
  | _ => .vnull

/-- `JobList.filter`: applies in order the status filter, the tool_key
filter, the tool_version filter, each `kwargs` attribute filter (in
order), and finally the custom predicate, each as a list comprehension
over the survivors of the previous one, and wraps the result in a new
JobList. `none` for an argument means the argument was not passed. -/
def JobList.filter (jobs : List Job) (status : Option String)
    (tool_key : Option String) (tool_version : Option String)
    (kwargs : List (String × Val)) (predicate : Option (Job → Bool)) :
    List Job :=
  let f1 := match status with
    | none => jobs
    | some s => jobs.filter (fun j => j.status == .vstr s)
  let f2 := match tool_key with
    | none => f1
    | some k => f1.filter (fun j => j.attrsTruthy && (j.toolField "key" == .vstr k))
  let f3 := match tool_version with
    | none => f2
    | some v => f2.filter (fun j => j.attrsTruthy && (j.toolField "version" == .vstr v))
  let f4 := kwargs.foldl (fun acc kv =>
    acc.filter (fun j => j.attrsTruthy && (j.attrs.get kv.1 == kv.2))) f3
  match predicate with
  | none => f4
  | some p => f4.filter p

/-- The conjunction of the individual filters of `JobList.filter`, in the
fixed order status, tool_key, tool_version, the attribute filters, then
the custom predicate; an argument that was not passed contributes
`true`. The filter claim asserts that `JobList.filter` selects exactly
the jobs satisfying this conjunction. -/
def filterConjPred (status tool_key tool_version : Option String)
    (kwargs : List (String × Val)) (predicate : Option (Job → Bool))
    (j : Job) : Bool :=
  (match status with
    | none => true
    | some s => j.status == .vstr s) &&
  ((match tool_key with
    | none => true
    | some k => j.attrsTruthy && (j.toolField "key" == .vstr k)) &&
  ((match tool_version with
    | none => true
    | some v => j.attrsTruthy && (j.toolField "version" == .vstr v)) &&
  (kwargs.all (fun kv => j.attrsTruthy && (j.attrs.get kv.1 == kv.2)) &&
  (match predicate with
    | none => true
    | some p => p j))))

/-- A cell of the dataframe built by `to_dataframe`: the four timestamp
columns hold the output of the pandas datetime coercion, the other
columns hold the raw projected value. -/
inductive DFCell where
  | raw (v : Val)
  | time (t : Option Int)
deriving Repr, DecidableEq

/-- The fixed column set of `JobList.to_dataframe`, in order. -/
def toDataframeColumns : List String :=
  ["status", "executionId", "createdAt", "updatedAt", "completedAt",
   "startedAt", "approveAmount", "tool.key", "tool.version"]

/-- One dataframe row for one job: `attributes` is the snapshot or `{}`
when falsy; plain columns are `attributes.get(col)`; `tool.key` and
`tool.version` come from the tool dict when it is a dict, else `None`;
the four timestamp columns are then converted by
`pd.to_datetime(errors="coerce", utc=True).dt.tz_localize(None)
.astype("datetime64[us]")`, modelled by the total coercion `p` into
timezone-naive UTC instants in integer microseconds (`none` is
`NaT`, the null marker produced for missing or unparseable inputs). -/
def Job.dfRow (p : Val → Option Int) (j : Job) : List DFCell :=
  let attributes := match j._attributes with
    | some d => if d.isEmpty then DTO.nil else d
    | none => .nil
  let toolCell := fun (k : String) =>
    match attributes.get "tool" with
    | .vdict d => d.get k
    | _ => .vnull
  [.raw (attributes.get "status"),
   .raw (attributes.get "executionId"),
   .time (p (attributes.get "createdAt")),
   .time (p (attributes.get "updatedAt")),
   .time (p (attributes.get "completedAt")),
   .time (p (attributes.get "startedAt")),
   .raw (attributes.get "approveAmount"),
   .raw (toolCell "key"),
   .raw (toolCell "version")]

/-- `JobList.to_dataframe`: the fixed columns and one row per job, with
the four datetime columns converted through the pandas coercion `p`.
Total: no input raises. -/
def JobList.to_dataframe (p : Val → Option Int) (jobs : List Job) :
    List String × List (List DFCell) :=
  (toDataframeColumns, jobs.map (Job.dfRow p))

/-- One response of the gateway paged list endpoint
(`client.executions.list`). A dict response is read through
`response.get("data", [])` and `response.get("count", 0)`; the
constructor carries those two read values. A non-dict response is either
a bare list of DTOs or some other value (contributing nothing). -/
inductive ListResponse where
  | rdict (count : Int) (data : List DTO)
  | rlist (items : List DTO)
  | rother
deriving Repr

/-- The pagination loop of `JobList.list`: starting from `current_page`,
calls the list endpoint (`pages` maps the page number to its response),
extends the accumulator, and either stops or moves to the next page. A
non-dict response extends (for a bare list) and stops. For a dict
response: when `count > page_size` the loop stops on a partial page or
once the accumulated count reaches `count`, else advances; when
`count <= page_size` it stops at once. Returns the accumulated DTOs and
the number of endpoint calls; `fuel` bounds the recursion (the Python
loop recurses only while pages are full and the accumulator is short of
`count`, and can diverge against an adversarial gateway), with `none`
for fuel exhaustion. -/
def listLoop (pages : Nat → ListResponse) (page_size : Int) :
    Nat → Nat → List DTO → Nat → Option (List DTO × Nat)
  | 0, _, _, _ => none
  | fuel + 1, current_page, all_dtos, ncalls =>
    match pages current_page with
    | .rlist items => some (all_dtos ++ items, ncalls + 1)
    | .rother => some (all_dtos, ncalls + 1)
    | .rdict count data =>
        let acc := all_dtos ++ data
        if count > page_size then
          if (data.length : Int) < page_size then some (acc, ncalls + 1)
          else if (acc.length : Int) ≥ count then some (acc, ncalls + 1)
          else listLoop pages page_size fuel (current_page + 1) acc (ncalls + 1)
        else some (acc, ncalls + 1)

/-- `JobList.from_dtos`: builds one Job per DTO via `Job.from_dto`; the
gateway-call trace is the concatenation of the member traces (always
empty) and a `ValueError` from any member propagates, aborting the
comprehension as in Python. -/
def JobList.from_dtos (dtos : List DTO) : List GCall × Except String (List Job) :=
  ((dtos.map (fun d => (Job.from_dto d).1)).flatten,
   dtos.mapM (fun d => (Job.from_dto d).2))

/-- `JobList.list`: runs the pagination loop from `page` (default 0) with
an empty accumulator, then converts the accumulated DTOs through
`from_dtos`. Returns the gateway-call trace of the conversion, the
constructed jobs, and the number of list-endpoint calls. -/
def JobList.list (pages : Nat → ListResponse) (page_size : Int)
    (page : Option Nat) (fuel : Nat) :
    Option (List GCall × Except String (List Job) × Nat) :=
  match listLoop pages page_size fuel (page.getD 0) [] 0 with
  | none => none
  | some (dtos, ncalls) =>
      let c := JobList.from_dtos dtos
      some (c.1, c.2, ncalls)

/-! Concrete gateways, jobs and inputs used by the closed theorems below. -/

/-- A gateway whose get endpoint returns a Running snapshot and whose
confirm/cancel endpoints succeed. -/
def gwOk : Gateway :=
  ⟨fun _ => .ok (DTO.ofList [("status", .vstr "Running")]),
   fun _ => .ok .vnull, fun _ => .ok .vnull⟩

/-- A job in the Running state. -/
def jRun : Job := { name := "job", _id := .vstr "r", status := .vstr "Running" }

/-- A job in the Quoted state. -/
def jQuoted : Job := { name := "job", _id := .vstr "q", status := .vstr "Quoted" }

/-- `jQuoted` after a successful confirm and re-sync against `gwOk`. -/
def jQuotedSynced : Job :=
  { name := "job", _id := .vstr "q",
    _attributes := some (DTO.ofList [("status", .vstr "Running")]),
    status := .vstr "Running" }

/-- A gateway whose get endpoint successfully returns the empty dict. -/
def gwEmptyResult : Gateway :=
  ⟨fun _ => .ok .nil, fun _ => .ok .vnull, fun _ => .ok .vnull⟩

/-- A job holding a Running snapshot, for the sync counterexample. -/
def jSnap : Job :=
  { name := "job", _id := .vstr "x",
    _attributes := some (DTO.ofList [("status", .vstr "Running")]),
    status := .vstr "Running" }

/-- A gateway whose get endpoint returns a Succeeded snapshot. -/
def gwSucceeded : Gateway :=
  ⟨fun _ => .ok (DTO.ofList [("status", .vstr "Succeeded")]),
   fun _ => .ok .vnull, fun _ => .ok .vnull⟩

/-- A DTO carrying executionId, status and a tool dict. -/
def dtoFull : DTO :=
  DTO.ofList [("executionId", .vstr "e1"), ("status", .vstr "Quoted"),
    ("tool", .vdict (DTO.ofList [("key", .vstr "deeporigin.docking"),
      ("version", .vstr "1.0.0")]))]

/-- A job whose snapshot has a `bar` attribute but no `foo` attribute. -/
def jBar : Job :=
  { name := "job", _id := .vstr "a",
    _attributes := some (DTO.ofList [("bar", .vint 1)]),
    status := .vstr "Running" }

/-- A non-terminal job with no poller task, for the watch theorems. -/
def jWatch : Job := { name := "job", _id := .vstr "w", status := .vstr "Running" }

/-- A job already in the terminal state Succeeded. -/
def jDone : Job := { name := "job", _id := .vstr "d", status := .vstr "Succeeded" }

/-- An empty scheduler. -/
def ts0 : TaskState := ⟨0, []⟩

/-- A concrete pandas coercion: parses one fixed ISO-8601 string and
coerces everything else (missing values included) to `NaT`. -/
def pdCoerceW : Val → Option Int :=
  fun v => match v with
    | .vstr s => if s == "2024-01-02T03:04:05Z" then some 1704164645000000 else none
    | _ => none

/-- A job whose snapshot has createdAt but neither completedAt nor
startedAt. -/
def jNoTimes : Job :=
  { name := "job", _id := .vstr "n",
    _attributes := some (DTO.ofList [("executionId", .vstr "n"),
      ("status", .vstr "Running"), ("createdAt", .vstr "2024-01-02T03:04:05Z")]),
    status := .vstr "Running" }

/-- The DTO each page of the paginated scenario returns. -/
def dtoPage : DTO :=
  DTO.ofList [("executionId", .vstr "e"), ("status", .vstr "Running")]

/-- The job `Job.from_dto` builds from `dtoPage`. -/
def jPage : Job :=
  { name := "job", _id := .vstr "e", _attributes := some dtoPage,
    status := .vstr "Running" }

/-- The gateway list endpoint of the pagination scenario: count 250, 100
items on pages 0 and 1, 50 items on page 2. -/
def pagesC5 : Nat → ListResponse :=
  fun p =>
    if p == 0 then .rdict 250 (List.replicate 100 dtoPage)
    else if p == 1 then .rdict 250 (List.replicate 100 dtoPage)
    else .rdict 250 (List.replicate 50 dtoPage)

/-- A single-page list endpoint reporting count 5 with an empty page. -/
def pagesSmall : Nat → ListResponse := fun _ => .rdict 5 []

/-- C10: constructing a Job from a DTO whose `executionId` is absent (or
`None`) raises `ValueError` with the fixed message, before any Job state
is created and with no gateway call. -/
theorem from_dto_missing_execution_id (dto : DTO)
    (h : dto.get "executionId" = .vnull) :
    Job.from_dto dto = ([], .error "DTO must contain \x27executionId\x27 field") := by
  simp [Job.from_dto, h]

/-- Witness for C10 at the empty DTO. -/
theorem from_dto_missing_execution_id_witness :
    Job.from_dto .nil = ([], .error "DTO must contain \x27executionId\x27 field") :=
  from_dto_missing_execution_id .nil rfl

/-- C4: constructing a Job from a DTO that has an `executionId` makes no
gateway call, and the resulting Job has `status = dto.get("status")` and
the DTO itself as its cached snapshot: a pure projection. -/
theorem from_dto_pure_projection (dto : DTO)
    (h : dto.get "executionId" ≠ .vnull) :
    (Job.from_dto dto).1 = [] ∧
    (Job.from_dto dto).2 = .ok { name := "job",
                                 _id := dto.get "executionId",
                                 _attributes := some dto,
                                 status := dto.get "status" } := by
  cases hE : dto.get "executionId" with
  | vnull => exact absurd hE h
  | vbool b => simp [Job.from_dto, hE]
  | vint n => simp [Job.from_dto, hE]
  | vstr s => simp [Job.from_dto, hE]
  | vlist l => simp [Job.from_dto, hE]
  | vdict d => simp [Job.from_dto, hE]

/-- Witness for C4 at a full DTO. -/
theorem from_dto_pure_projection_witness :
    dtoFull.get "executionId" ≠ .vnull ∧
    (Job.from_dto dtoFull).1 = [] ∧
    (Job.from_dto dtoFull).2 = .ok { name := "job",
                                     _id := dtoFull.get "executionId",
                                     _attributes := some dtoFull,
                                     status := dtoFull.get "status" } :=
  ⟨by decide, from_dto_pure_projection dtoFull (by decide)⟩

/-- C1: `confirm()` on a Job whose status is not `Quoted` raises the
`DeepOriginException` carrying the current status and performs no
gateway call; on a Quoted Job it invokes the gateway confirm endpoint
exactly once and (when that call returns) performs `sync()`. -/
theorem confirm_quoted_gate (gw : Gateway) (j : Job) :
    (j.status ≠ .vstr "Quoted" →
      Job.confirm gw j = ([], .error (.doError
        ⟨notQuotedTitle, "warning", notQuotedMessage j.status⟩))) ∧
    (j.status = .vstr "Quoted" →
      (Job.confirm gw j).1.count (GCall.confirmCall j._id) = 1 ∧
      ∀ u, gw.confirm j._id = .ok u →
        Job.confirm gw j = (GCall.confirmCall j._id :: (Job.sync gw j).1,
          (Job.sync gw j).2.mapError JobError.gatewayError)) := by
  constructor
  · intro h
    simp [Job.confirm, h]
  · intro h
    constructor
    · cases hc : gw.confirm j._id with
      | error e => simp [Job.confirm, h, hc]
      | ok u => simp [Job.confirm, h, hc, Job.sync]
    · intro u hu
      simp [Job.confirm, h, hu]

/-- Witness for C1: a Running job is rejected with the status-carrying
error; a Quoted job confirms against the gateway and re-syncs. -/
theorem confirm_quoted_gate_witness :
    Job.confirm gwOk jRun = ([], .error (.doError
      ⟨notQuotedTitle, "warning", notQuotedMessage jRun.status⟩)) ∧
    Job.confirm gwOk jQuoted = (GCall.confirmCall jQuoted._id ::
      (Job.sync gwOk jQuoted).1,
      (Job.sync gwOk jQuoted).2.mapError JobError.gatewayError) :=
  ⟨(confirm_quoted_gate gwOk jRun).1 (by decide),
   ((confirm_quoted_gate gwOk jQuoted).2 rfl).2 .vnull rfl⟩

/-- C3 counterexample: a successful gateway get returning the empty dict
(falsy in Python) does not replace the snapshot: `sync` returns the job
unchanged, its snapshot differing from the fetched one, whereas the claim
requires the snapshot to be replaced wholesale on every successful get. -/
theorem sync_empty_result_counterexample :
    gwEmptyResult.get_execution jSnap._id = .ok .nil ∧
    (Job.sync gwEmptyResult jSnap).2 = .ok jSnap ∧
    jSnap._attributes = some (DTO.ofList [("status", .vstr "Running")]) ∧
    some (DTO.ofList [("status", .vstr "Running")]) ≠ some DTO.nil := by
  exact ⟨rfl, rfl, rfl, by decide⟩

/-- C3 amended: `sync()` on a successful get returning a truthy
(non-empty) snapshot replaces the snapshot wholesale and recomputes
status from it; a successful but falsy (empty) result leaves the prior
state untouched without error; a gateway failure leaves the prior state
untouched and propagates the error. -/
theorem sync_replace_semantics (gw : Gateway) (j : Job) :
    (∀ d, gw.get_execution j._id = .ok d → d ≠ .nil →
      Job.sync gw j = ([.getCall j._id],
        .ok { j with _attributes := some d, status := d.get "status" })) ∧
    (gw.get_execution j._id = .ok .nil →
      Job.sync gw j = ([.getCall j._id], .ok j)) ∧
    (∀ e, gw.get_execution j._id = .error e →
      Job.sync gw j = ([.getCall j._id], .error e)) := by
  refine ⟨?_, ?_, ?_⟩
  · intro d hok hne
    cases d with
    | nil => exact absurd rfl hne
    | cons k v rest => simp [Job.sync, hok, DTO.isEmpty]
  · intro hok
    simp [Job.sync, hok, DTO.isEmpty]
  · intro e herr
    simp [Job.sync, herr]

/-- Witness for C3 at a gateway returning a Succeeded snapshot. -/
theorem sync_replace_semantics_witness :
    Job.sync gwSucceeded jRun = ([.getCall jRun._id],
      .ok { jRun with
              _attributes := some (DTO.ofList [("status", .vstr "Succeeded")]),
              status := (DTO.ofList [("status", .vstr "Succeeded")]).get "status" }) :=
  (sync_replace_semantics gwSucceeded jRun).1
    (DTO.ofList [("status", .vstr "Succeeded")]) rfl (by decide)

/-- Single-step shape of `watch` on a non-terminal job: the old task (if
any) is cancelled first, then a fresh task is scheduled and its handle
stored. -/
theorem watch_nonterminal_spec (ts : TaskState) (j : Job)
    (hterm : statusTerminalGuard j.status = false) :
    Job.watch ts j = ⟨⟨ts.nextId + 1,
        (match j._task with
         | none => ts.active
         | some t0 => ts.active.erase t0) ++ [ts.nextId]⟩,
      { j with _task := some ts.nextId },
      [.initPlaceholder, .taskScheduled ts.nextId]⟩ := by
  cases h : j._task with
  | none => simp [Job.watch, hterm, Job.stop_watching, h]
  | some t0 => simp [Job.watch, hterm, Job.stop_watching, h]

/-- C8: `watch()` on a job whose status is a terminal state performs the
single immediate render (the notice plus one `show()`), returns, and
schedules no background task: scheduler and job are unchanged. -/
theorem watch_terminal_renders_once (ts : TaskState) (j : Job) (s : String)
    (hs : j.status = .vstr s) (hterm : s ∈ TERMINAL_STATES) :
    Job.watch ts j = ⟨ts, j, [.displayNotice, .showRender]⟩ := by
  have hguard : statusTerminalGuard j.status = true := by
    rw [hs]
    simp only [TERMINAL_STATES, List.mem_cons, List.not_mem_nil, or_false] at hterm
    rcases hterm with rfl | rfl | rfl <;> decide
  simp [Job.watch, hguard]

/-- Witness for C8 at a Succeeded job and the empty scheduler. -/
theorem watch_terminal_renders_once_witness :
    jDone.status = .vstr "Succeeded" ∧
    Job.watch ts0 jDone = ⟨ts0, jDone, [.displayNotice, .showRender]⟩ :=
  ⟨rfl, watch_terminal_renders_once ts0 jDone "Succeeded" rfl (by decide)⟩

/-- C7: on a non-terminal job, `watch()` cancels the existing poller task
(if any) before scheduling the new one, so the job holds exactly one
active poller afterwards, and a second `watch()` cancels and replaces the
first poller: exactly one poller is active after the two calls, and the
task the first call created is no longer active — never two running
concurrently. -/
theorem watch_twice_single_poller (ts : TaskState) (j : Job)
    (hwf : TaskState.wf ts j)
    (hterm : statusTerminalGuard j.status = false) :
    ((Job.watch ts j).job._task = some ts.nextId ∧
      ts.nextId ∈ (Job.watch ts j).ts.active) ∧
    (∀ t0, j._task = some t0 → t0 ∉ (Job.watch ts j).ts.active) ∧
    jobActivePollers (Job.watch ts j).ts (Job.watch ts j).job = 1 ∧
    ((Job.watch (Job.watch ts j).ts (Job.watch ts j).job).job._task
        = some (ts.nextId + 1) ∧
      ts.nextId + 1 ∈ (Job.watch (Job.watch ts j).ts (Job.watch ts j).job).ts.active ∧
      ts.nextId ∉ (Job.watch (Job.watch ts j).ts (Job.watch ts j).job).ts.active ∧
      jobActivePollers (Job.watch (Job.watch ts j).ts (Job.watch ts j).job).ts
        (Job.watch (Job.watch ts j).ts (Job.watch ts j).job).job = 1) := by
  obtain ⟨hnd, hlt, htask⟩ := hwf
  have h1 := watch_nonterminal_spec ts j hterm
  set B : List Nat := (match j._task with
    | none => ts.active
    | some t0 => ts.active.erase t0) with hB
  have hBsub : ∀ t ∈ B, t < ts.nextId := by
    intro t ht
    rw [hB] at ht
    cases htk : j._task with
    | none => rw [htk] at ht; exact hlt t ht
    | some t0 => rw [htk] at ht; exact hlt t (List.mem_of_mem_erase ht)
  have hnB : ts.nextId ∉ B := fun h => absurd (hBsub _ h) (lt_irrefl _)
  have h2 : Job.watch (Job.watch ts j).ts (Job.watch ts j).job =
      ⟨⟨ts.nextId + 2, B ++ [ts.nextId + 1]⟩,
       { j with _task := some (ts.nextId + 1) },
       [.initPlaceholder, .taskScheduled (ts.nextId + 1)]⟩ := by
    rw [h1]
    have h2a := watch_nonterminal_spec
      (⟨ts.nextId + 1, B ++ [ts.nextId]⟩ : TaskState)
      ({ j with _task := some ts.nextId }) hterm
    simp only at h2a
    rw [h2a]
    have herase : (B ++ [ts.nextId]).erase ts.nextId = B := by
      rw [List.erase_append_right _ hnB]
      simp
    simp [herase]
  refine ⟨⟨?_, ?_⟩, ?_, ?_, ?_, ?_, ?_, ?_⟩
  · rw [h1]
  · rw [h1]; simp
  · intro t0 ht0
    rw [h1]
    simp only [List.mem_append, List.mem_singleton]
    rintro (hmem | rfl)
    · rw [hB] at hmem
      rw [ht0] at hmem
      exact absurd hmem (hnd.not_mem_erase)
    · exact absurd (htask _ ht0) (lt_irrefl _)
  · rw [h1]; simp [jobActivePollers]
  · rw [h2]
  · rw [h2]; simp
  · rw [h2]
    simp only [List.mem_append, List.mem_singleton]
    rintro (hmem | h)
    · exact hnB hmem
    · omega
  · rw [h2]; simp [jobActivePollers]

/-- Witness for C7: two watches on a fresh Running job leave exactly one
active poller, the second task, with the first no longer active. -/
theorem watch_twice_single_poller_witness :
    (Job.watch ts0 jWatch).job._task = some ts0.nextId ∧
    jobActivePollers (Job.watch ts0 jWatch).ts (Job.watch ts0 jWatch).job = 1 ∧
    (Job.watch (Job.watch ts0 jWatch).ts (Job.watch ts0 jWatch).job).job._task
      = some (ts0.nextId + 1) ∧
    ts0.nextId ∉ (Job.watch (Job.watch ts0 jWatch).ts
      (Job.watch ts0 jWatch).job).ts.active ∧
    jobActivePollers (Job.watch (Job.watch ts0 jWatch).ts
        (Job.watch ts0 jWatch).job).ts
      (Job.watch (Job.watch ts0 jWatch).ts (Job.watch ts0 jWatch).job).job = 1 := by
  have h := watch_twice_single_poller ts0 jWatch
    ⟨List.nodup_nil, by simp [ts0], by simp [jWatch]⟩ rfl
  exact ⟨h.1.1, h.2.2.1, h.2.2.2.1, h.2.2.2.2.2.1, h.2.2.2.2.2.2⟩

/-- Folding the attribute filters over a list equals one filter by the
conjunction of all of them. -/
theorem foldl_filter_all (l : List Job) (kwargs : List (String × Val)) :
    kwargs.foldl (fun acc kv =>
        acc.filter (fun j => j.attrsTruthy && (j.attrs.get kv.1 == kv.2))) l =
      l.filter (fun j =>
        kwargs.all (fun kv => j.attrsTruthy && (j.attrs.get kv.1 == kv.2))) := by
  induction kwargs generalizing l with
  | nil => simp
  | cons kv rest ih =>
    rw [List.foldl_cons, ih, List.filter_filter]
    apply List.filter_congr
    intro j _
    rw [List.all_cons]
    cases rest.all (fun kv => j.attrsTruthy && (j.attrs.get kv.1 == kv.2)) <;> simp

/-- C6 (amended): `filter()` returns exactly the jobs satisfying the
conjunction of all given filters (applied in the fixed order status,
tool_key, tool_version, attribute filters, predicate); with no arguments
it returns the identical member sequence; a job with a falsy snapshot is
excluded by any attribute filter; a job lacking an attribute referenced
by an attribute filter is excluded when the filter value is not `None`
(a `None`-valued filter instead matches the missing attribute, since
`attributes.get` defaults the lookup to `None`). -/
theorem filter_conjunction (jobs : List Job)
    (status tool_key tool_version : Option String)
    (kwargs : List (String × Val)) (predicate : Option (Job → Bool)) :
    JobList.filter jobs status tool_key tool_version kwargs predicate =
      jobs.filter (filterConjPred status tool_key tool_version kwargs predicate) ∧
    JobList.filter jobs none none none [] none = jobs ∧
    (∀ j, j.attrsTruthy = false → kwargs ≠ [] →
      j ∉ JobList.filter jobs status tool_key tool_version kwargs predicate) ∧
    (∀ j k v, (k, v) ∈ kwargs → j.attrs.get k = .vnull → v ≠ .vnull →
      j ∉ JobList.filter jobs status tool_key tool_version kwargs predicate) := by
  have hmain : JobList.filter jobs status tool_key tool_version kwargs predicate =
      jobs.filter (filterConjPred status tool_key tool_version kwargs predicate) := by
    cases status <;> cases tool_key <;> cases tool_version <;> cases predicate <;>
      (simp only [JobList.filter, foldl_filter_all, List.filter_filter]
       apply List.filter_congr
       intro j _
       simp [filterConjPred, Bool.and_comm, Bool.and_assoc, Bool.and_left_comm])
  refine ⟨hmain, by simp [JobList.filter], ?_, ?_⟩
  · intro j hfalse hne hmem
    rw [hmain] at hmem
    have hconj := (List.mem_filter.mp hmem).2
    unfold filterConjPred at hconj
    simp only [Bool.and_eq_true, List.all_eq_true] at hconj
    obtain ⟨-, -, -, hall, -⟩ := hconj
    match kwargs, hne with
    | kv :: rest, _ =>
      have h := hall kv (by simp)
      rw [hfalse] at h
      simp at h
  · intro j k v hkv hmiss hnn hmem
    rw [hmain] at hmem
    have hconj := (List.mem_filter.mp hmem).2
    unfold filterConjPred at hconj
    simp only [Bool.and_eq_true, List.all_eq_true] at hconj
    obtain ⟨-, -, -, hall, -⟩ := hconj
    have h2 := hall (k, v) hkv
    simp only [Bool.and_eq_true, beq_iff_eq] at h2
    rw [hmiss] at h2
    exact hnn h2.2.symm

/-- C6 counterexample: an attribute filter whose value is `None` matches
a job lacking that attribute (`attributes.get` defaults the lookup to
`None`, which compares equal), so the job is included, whereas the claim
requires a job lacking a referenced attribute to be excluded. -/
theorem filter_null_value_matches_missing_attribute :
    jBar._attributes ≠ none ∧
    jBar.attrs.get "foo" = .vnull ∧
    JobList.filter [jBar] none none none [("foo", .vnull)] none = [jBar] :=
  ⟨by decide, rfl, by decide⟩

/-- Witness for C6: a job lacking the filtered attribute is excluded for
a non-None filter value, and the no-argument filter is the identity. -/
theorem filter_conjunction_witness :
    jBar ∉ JobList.filter [jBar] none none none [("foo", .vint 2)] none ∧
    JobList.filter [jBar] none none none [] none = [jBar] :=
  ⟨(filter_conjunction [jBar] none none none [("foo", .vint 2)] none).2.2.2
      jBar "foo" (.vint 2) (by simp) rfl (by decide),
   (filter_conjunction [jBar] none none none [] none).2.1⟩

/-- C2 (amended): the bulk operations attempt the member operation on
every job (each member outcome is the own attempt of that job, independent of
the others — not fail-fast), are bounded by a pool of default size 4,
and always return normally: member failures are captured in the futures
and silently discarded, and no aggregate error is raised. -/
theorem bulk_ops_attempt_all_never_raise (gw : Gateway) (jobs : List Job) :
    (∀ i : Nat, (JobList.confirmAttempts gw jobs)[i]? =
      (jobs[i]?).map (Job.confirm gw)) ∧
    (∀ i : Nat, (JobList.cancelAttempts gw jobs)[i]? =
      (jobs[i]?).map (Job.cancel gw)) ∧
    (∃ l, JobList.confirm gw jobs = .ok l ∧ l.length = jobs.length) ∧
    (∃ l, JobList.cancel gw jobs = .ok l ∧ l.length = jobs.length) ∧
    bulkMaxWorkersDefault = 4 := by
  refine ⟨?_, ?_, ⟨_, rfl, by simp [JobList.confirm]⟩,
    ⟨_, rfl, by simp [JobList.cancel]⟩, rfl⟩
  · intro i
    simp [JobList.confirmAttempts]
  · intro i
    simp [JobList.cancelAttempts]

/-- C2 counterexample: with one Running member (whose confirm raises) and
one Quoted member, both operations are attempted, but `JobList.confirm`
returns normally with the failure silently discarded, whereas the claim
requires an `AggregateFailure` carrying the failing (job, error) pair to
be raised — the behavior of `confirmAllSpec`, which the source does not
implement. -/
theorem bulk_confirm_swallows_failures :
    (Job.confirm gwOk jRun).2 = .error (.doError
      ⟨notQuotedTitle, "warning", notQuotedMessage (.vstr "Running")⟩) ∧
    JobList.confirm gwOk [jRun, jQuoted] = .ok [jRun, jQuotedSynced] ∧
    JobList.confirmAllSpec gwOk [jRun, jQuoted] = .error
      [(jRun, .doError
        ⟨notQuotedTitle, "warning", notQuotedMessage (.vstr "Running")⟩)] :=
  ⟨rfl, rfl, rfl⟩

/-- C9: `to_dataframe` produces the fixed column set (the Job id column
is the snapshot executionId field) and one row per job in order; each
row has nine cells; the four timestamp columns hold the pandas coercion
of the raw snapshot values into timezone-naive UTC microsecond instants,
with the null marker (NaT, `none`) for missing or unparseable inputs —
in particular a job missing completedAt or startedAt gets the null
marker in those cells rather than an error. -/
theorem to_dataframe_fixed_columns (p : Val → Option Int) (jobs : List Job)
    (hp : p .vnull = none) :
    (JobList.to_dataframe p jobs).1 = ["status", "executionId", "createdAt",
      "updatedAt", "completedAt", "startedAt", "approveAmount", "tool.key",
      "tool.version"] ∧
    (JobList.to_dataframe p jobs).2.length = jobs.length ∧
    (∀ i : Nat, ((JobList.to_dataframe p jobs).2)[i]? =
      (jobs[i]?).map (Job.dfRow p)) ∧
    (∀ j, (Job.dfRow p j).length = 9) ∧
    (∀ j, j.attrs.get "completedAt" = .vnull →
      (Job.dfRow p j)[4]? = some (.time none)) ∧
    (∀ j, j.attrs.get "startedAt" = .vnull →
      (Job.dfRow p j)[5]? = some (.time none)) := by
  refine ⟨rfl, by simp [JobList.to_dataframe], ?_, ?_, ?_, ?_⟩
  · intro i
    simp [JobList.to_dataframe]
  · intro j
    cases hA : j._attributes with
    | none => simp [Job.dfRow, hA]
    | some d => cases d <;> simp [Job.dfRow, hA, DTO.isEmpty]
  · intro j hmiss
    cases hA : j._attributes with
    | none => simp [Job.dfRow, hA, hp, DTO.get]
    | some d =>
      cases d with
      | nil => simp [Job.dfRow, hA, DTO.isEmpty, hp, DTO.get]
      | cons k v rest =>
        have hattr : j.attrs = DTO.cons k v rest := by simp [Job.attrs, hA]
        rw [hattr] at hmiss
        simp [Job.dfRow, hA, DTO.isEmpty, hmiss, hp]
  · intro j hmiss
    cases hA : j._attributes with
    | none => simp [Job.dfRow, hA, hp, DTO.get]
    | some d =>
      cases d with
      | nil => simp [Job.dfRow, hA, DTO.isEmpty, hp, DTO.get]
      | cons k v rest =>
        have hattr : j.attrs = DTO.cons k v rest := by simp [Job.attrs, hA]
        rw [hattr] at hmiss
        simp [Job.dfRow, hA, DTO.isEmpty, hmiss, hp]

/-- Witness for C9: a job with createdAt but no completedAt/startedAt
gets the null marker in both cells. -/
theorem to_dataframe_fixed_columns_witness :
    (JobList.to_dataframe pdCoerceW [jNoTimes]).1 = ["status", "executionId",
      "createdAt", "updatedAt", "completedAt", "startedAt", "approveAmount",
      "tool.key", "tool.version"] ∧
    (Job.dfRow pdCoerceW jNoTimes)[4]? = some (.time none) ∧
    (Job.dfRow pdCoerceW jNoTimes)[5]? = some (.time none) :=
  ⟨(to_dataframe_fixed_columns pdCoerceW [jNoTimes] rfl).1,
   (to_dataframe_fixed_columns pdCoerceW [jNoTimes] rfl).2.2.2.2.1 jNoTimes rfl,
   (to_dataframe_fixed_columns pdCoerceW [jNoTimes] rfl).2.2.2.2.2 jNoTimes rfl⟩

set_option maxRecDepth 40000 in
/-- C5: one step of the pagination loop recurses to the next page exactly
when the returned page is full and the accumulated count is still short
of the reported total, and stops otherwise — so the loop stops exactly
when the page holds fewer than page_size items or the accumulated count
reaches the reported count; and in the concrete scenario (count 250,
pages of 100, 100 and 50 items) `JobList.list` with page_size 100 makes
exactly 3 endpoint calls and yields 250 Jobs, all built by `from_dto`
with no further gateway calls. -/
theorem jobs_list_pagination (pages : Nat → ListResponse) (page_size : Int)
    (fuel current_page ncalls : Nat) (acc : List DTO) (c : Int)
    (data : List DTO) (hp : pages current_page = .rdict c data) :
    (listLoop pages page_size (fuel + 1) current_page acc ncalls =
      if (data.length : Int) ≥ page_size ∧ ((acc ++ data).length : Int) < c then
        listLoop pages page_size fuel (current_page + 1) (acc ++ data) (ncalls + 1)
      else some (acc ++ data, ncalls + 1)) ∧
    JobList.list pagesC5 100 none 10 =
      some ([], .ok (List.replicate 250 jPage), 3) := by
  constructor
  · have hlen : ((acc ++ data).length : Int) = (acc.length : Int) + data.length := by
      rw [List.length_append]
      push_cast
      ring
    simp only [listLoop, hp]
    split_ifs <;> first | rfl | omega
  · rfl

/-- Witness for C5: a single page reporting count 5 with an empty data
page stops after one call. -/
theorem jobs_list_pagination_witness :
    listLoop pagesSmall 3 1 0 [] 0 = some ([], 1) := by
  have h := (jobs_list_pagination pagesSmall 3 0 0 0 [] 5 [] rfl).1
  simpa using h

/-- Witness for C2 at a two-member list with one failing member. -/
theorem bulk_ops_attempt_all_never_raise_witness :
    (JobList.confirmAttempts gwOk [jRun, jQuoted])[0]? =
      some (Job.confirm gwOk jRun) ∧
    JobList.confirm gwOk [jRun, jQuoted] = .ok [jRun, jQuotedSynced] ∧
    bulkMaxWorkersDefault = 4 := by
  have h := bulk_ops_attempt_all_never_raise gwOk [jRun, jQuoted]
  exact ⟨by simpa using h.1 0, rfl, h.2.2.2.2⟩
